import Mathlib

/-!
# Verification of the mcp-server-workshop repository

A shallow embedding, in Lean 4, of the parts of the repository that the
specification's testable properties talk about:

* the JavaScript string primitives the code relies on
  (`String.prototype.split` with a `/[...]+/` regular expression,
  `trim`, `toLowerCase`, `includes`, stable `Array.prototype.sort`);
* `DocumentSummarizer.extractiveSummary` / `extractKeywords`
  (`use-cases/meeting-summary/src/services/summarizer-service.ts`);
* `ReservationService` (`use-cases/restaurant-reservation/src/services/
  reservation-service.ts`) with its in-memory reservation list;
* `RestaurantService` response post-processing and formatters;
* `BookingService.createTravelPlan` / `getTravelPlan` (travel planner);
* the declared zod parameter schemas and the MCP tool dispatch gate;
* the per-tool catch-all error handlers.

Strings are modelled on `List Char` (Unicode code points); the repository
only manipulates ASCII in the relevant paths, and `toLowerCase` is modelled
by Lean's ASCII `Char.toLower`, which is the scope the claims use.
JavaScript numbers appearing in validated inputs and API data are modelled
by `ℚ`; counts and budgets that the code only ever treats as non-negative
integers are modelled by `Nat`.
-/

/-! ## JavaScript string primitives -/

/-- The ASCII whitespace characters matched by the `\s` class in the
regular expressions the code uses (`/\s+/`, `/[^\w\s]/`). -/
def isWsChar (c : Char) : Bool :=
  c = ' ' || c = '\t' || c = '\n' || c = '\r' || c = '\x0b' || c = '\x0c'

/-- The sentence separators of `content.split(/[.!?]+/)`. -/
def isSentenceSepChar (c : Char) : Bool :=
  c = '.' || c = '!' || c = '?'

/-- The `\w` class `[A-Za-z0-9_]` of `content.replace(/[^\w\s]/g, ' ')`. -/
def isWordChar (c : Char) : Bool :=
  ('a' ≤ c && c ≤ 'z') || ('A' ≤ c && c ≤ 'Z') || ('0' ≤ c && c ≤ '9') || c = '_'

/-- State machine behind `String.prototype.split` with a `/[c...]+/` regex:
`inRun` records whether the previous character was a separator (a run of
separators produces a single split point), `cur` is the current segment,
reversed. -/
def jsSplitAux (p : Char → Bool) (inRun : Bool) (cur : List Char) :
    List Char → List (List Char)
  | [] => [cur.reverse]
  | c :: cs =>
    if p c then
      if inRun then jsSplitAux p true [] cs
      else cur.reverse :: jsSplitAux p true [] cs
    else jsSplitAux p false (c :: cur) cs

/-- Model of `s.split(/[c...]+/)` where `p` recognises the characters of the class:
splits at each maximal run of separator characters, keeping the (possibly
empty) segments at both ends, and returns `[""]` on the empty string —
exactly the JavaScript semantics. -/
def jsSplit (p : Char → Bool) (cs : List Char) : List (List Char) :=
  jsSplitAux p false [] cs

/-- Number of segments `jsSplit` produces, computed by the same state
machine but keeping only the count. -/
def segCount (p : Char → Bool) (inRun : Bool) : List Char → Nat
  | [] => 1
  | c :: cs =>
    if p c then (if inRun then 0 else 1) + segCount p true cs
    else segCount p false cs

/-- Whether the last character of `cs` satisfies `p` (`b` for the empty
list): the piece of state that determines how `segCount` continues across
a list append. -/
def lastD (p : Char → Bool) (b : Bool) : List Char → Bool
  | [] => b
  | c :: cs => lastD p (p c) cs

/-- Model of `s.trim()`: drop ASCII/Unicode whitespace from both ends (the code
only ever trims ASCII). -/
def trimChars (cs : List Char) : List Char :=
  ((cs.dropWhile isWsChar).reverse.dropWhile isWsChar).reverse

/-- Model of `s.toLowerCase()` on the character list (ASCII scope). -/
def jsToLower (cs : List Char) : List Char :=
  cs.map Char.toLower

/-- Model of `hay.includes(needle)` — substring test. -/
def containsSub (needle hay : List Char) : Bool :=
  hay.tails.any (fun t => needle.isPrefixOf t)

/-- Model of `s.split(/\s+/).length`, the word count the summarizer uses for its
budget and the count the specification's word-budget property is about. -/
def wordsOf (s : List Char) : Nat :=
  (jsSplit isWsChar s).length

/-- Word count of a `String` (split on whitespace, JavaScript `split(/\s+/)`
semantics). -/
def countWords (s : String) : Nat :=
  wordsOf s.data

/-! ## DocumentSummarizer (`summarizer-service.ts`) -/

/-- A sentence together with its score.  Scores are stored ×2 so that the
source's `score += 0.5` position boost stays integral; doubling every
score preserves the ordering the sort comparator `b.score - a.score`
computes. -/
structure ScoredSentence where
  sentence : List Char
  score : Nat
deriving DecidableEq, Repr

/-- Insert into a descending-by-key sorted list, after all elements of
equal or larger key.  Together with `sortDescBy` this models the stable
(ES2019) `Array.prototype.sort` with comparator `(a, b) => key(b) - key(a)`:
any stable descending sort yields the same list. -/
def insertDescBy {α : Type} (key : α → Nat) (x : α) : List α → List α
  | [] => [x]
  | y :: ys => if key y < key x then x :: y :: ys else y :: insertDescBy key x ys

/-- Stable descending insertion sort by `key` (see `insertDescBy`). -/
def sortDescBy {α : Type} (key : α → Nat) : List α → List α
  | [] => []
  | x :: xs => insertDescBy key x (sortDescBy key xs)

/-- Model of `frequency[word] = (frequency[word] || 0) + 1` over a JavaScript object:
key order is first-insertion order, updating an existing key keeps its
position. -/
def bumpFreq : List (List Char × Nat) → List Char → List (List Char × Nat)
  | [], w => [(w, 1)]
  | (k, n) :: rest, w =>
    if k == w then (k, n + 1) :: rest else (k, n) :: bumpFreq rest w

/-- Model of `DocumentSummarizer.extractKeywords`: lower-case the content, replace
every character outside `\w` and `\s` by a space, split on whitespace,
keep words longer than four characters, count frequencies, sort
descending by frequency (stable), take the top 8 words. -/
def extractKeywords (content : List Char) : List (List Char) :=
  let cleaned := content.map (fun c =>
    let c' := c.toLower
    if isWordChar c' || isWsChar c' then c' else ' ')
  let words := (jsSplit isWsChar cleaned).filter (fun w => 4 < w.length)
  let frequency := words.foldl bumpFreq []
  ((sortDescBy Prod.snd frequency).take 8).map Prod.fst

/-- Score of one sentence (×2): `+1` per keyword contained in the
lower-cased sentence (so `+2` here), `+0.5` (so `+1` here) when
`index < 3 || index > sentences.length - 3`; the subtraction is on
JavaScript numbers, hence over `ℤ`. -/
def scoreVal (keywords : List (List Char)) (total : Nat) (sentence : List Char)
    (index : Nat) : Nat :=
  2 * (keywords.filter
        (fun kw => containsSub (jsToLower kw) (jsToLower sentence))).length
  + (if index < 3 ∨ (index : ℤ) > (total : ℤ) - 3 then 1 else 0)

/-- Model of `sentences.map((sentence, index) => ({sentence, score}))`. -/
def scoreSentences (keywords : List (List Char)) (total : Nat) :
    Nat → List (List Char) → List ScoredSentence
  | _, [] => []
  | i, s :: rest =>
    ⟨s, scoreVal keywords total s i⟩ :: scoreSentences keywords total (i + 1) rest

/-- The greedy selection loop: walk the sorted sentences keeping a running
word count, pushing each sentence that still fits the budget. -/
def selectSentences (maxLength : Nat) :
    List ScoredSentence → Nat → List (List Char)
  | [], _ => []
  | item :: rest, wordCount =>
    let words := wordsOf item.sentence
    if wordCount + words ≤ maxLength then
      item.sentence :: selectSentences maxLength rest (wordCount + words)
    else
      selectSentences maxLength rest wordCount

/-- Model of `selected.join('. ')`. -/
def joinSel : List (List Char) → List Char
  | [] => []
  | s :: rest => s ++ if rest.isEmpty then [] else '.' :: ' ' :: joinSel rest

/-- Model of `DocumentSummarizer.extractiveSummary(content, maxLength)`:
split into sentences at `[.!?]+`, trim, keep sentences longer than 20
characters, score by keyword overlap and position, sort descending by
score, greedily select under the word budget, join with `'. '` and append
a final `'.'`. -/
def extractiveSummary (content : String) (maxLength : Nat) : String :=
  let sentences :=
    ((jsSplit isSentenceSepChar content.data).map trimChars).filter
      (fun s => 20 < s.length)
  let keywords := extractKeywords content.data
  let scored := scoreSentences keywords sentences.length 0 sentences
  let sorted := sortDescBy ScoredSentence.score scored
  let selected := selectSentences maxLength sorted 0
  String.mk (joinSel selected ++ ['.'])

/-! ## ReservationService (`reservation-service.ts`) -/

/-- Model of `Reservation.status`: `'confirmed' | 'pending' | 'cancelled'`. -/
inductive ResStatus where
  | confirmed
  | pending
  | cancelled
deriving DecidableEq, Repr

/-- Display string of a status (template-literal interpolation). -/
def ResStatus.toDisplay : ResStatus → String
  | .confirmed => "confirmed"
  | .pending => "pending"
  | .cancelled => "cancelled"

/-- The `Reservation` record of `types/index.ts`. -/
structure Reservation where
  id : String
  restaurantId : String
  restaurantName : String
  date : String
  time : String
  partySize : Nat
  customerName : String
  customerEmail : String
  customerPhone : String
  status : ResStatus
  specialRequests : Option String
deriving DecidableEq, Repr

/-- The `ReservationRequest` record. -/
structure ReservationRequest where
  restaurantId : String
  date : String
  time : String
  partySize : Nat
  customerName : String
  customerEmail : String
  customerPhone : String
  specialRequests : Option String
deriving DecidableEq, Repr

/-- Model of `a.toLowerCase() === b.toLowerCase()` (ASCII scope). -/
def emailMatches (a b : String) : Bool :=
  jsToLower a.data == jsToLower b.data

/-- The predicate of `findIndex` / `find` in `getReservationByIdAndEmail`
and `cancelReservation`:
`r.id === reservationId && r.customerEmail.toLowerCase() ===
customerEmail.toLowerCase()`. -/
def resMatches (reservationId customerEmail : String) (r : Reservation) : Bool :=
  r.id == reservationId && emailMatches r.customerEmail customerEmail

/-- Model of `ReservationService.makeReservation`: build the reservation with
`status: 'confirmed'`, `restaurantName: ''`, push it onto the in-memory
list and return it.  The generated timestamp/random id is passed in as
`reservationId`. -/
def makeReservation (request : ReservationRequest) (reservationId : String)
    (reservations : List Reservation) : Reservation × List Reservation :=
  let reservation : Reservation :=
    { id := reservationId
      restaurantId := request.restaurantId
      restaurantName := ""
      date := request.date
      time := request.time
      partySize := request.partySize
      customerName := request.customerName
      customerEmail := request.customerEmail
      customerPhone := request.customerPhone
      status := .confirmed
      specialRequests := request.specialRequests }
  (reservation, reservations ++ [reservation])

/-- Model of `ReservationService.getReservationsByEmail`. -/
def getReservationsByEmail (customerEmail : String)
    (reservations : List Reservation) : List Reservation :=
  reservations.filter (fun r => emailMatches r.customerEmail customerEmail)

/-- Model of `ReservationService.getReservationByIdAndEmail` (`find ... || null`). -/
def getReservationByIdAndEmail (reservationId customerEmail : String)
    (reservations : List Reservation) : Option Reservation :=
  reservations.find? (resMatches reservationId customerEmail)

/-- Model of `ReservationService.cancelReservation`: `findIndex` the first matching
reservation, return `null` if absent, otherwise set its `status` to
`'cancelled'` in place and return it.  The returned pair is (returned
reservation, list after the call). -/
def cancelReservation (reservationId customerEmail : String) :
    List Reservation → Option Reservation × List Reservation
  | [] => (none, [])
  | r :: rest =>
    if resMatches reservationId customerEmail r then
      let cancelled := { r with status := ResStatus.cancelled }
      (some cancelled, cancelled :: rest)
    else
      let p := cancelReservation reservationId customerEmail rest
      (p.1, r :: p.2)

/-- The reservation-list states reachable from the initial empty
`mockReservations` array by any sequence of `makeReservation` and
`cancelReservation` calls. -/
inductive ReachableReservations : List Reservation → Prop where
  | init : ReachableReservations []
  | make (request : ReservationRequest) (reservationId : String)
      {rs : List Reservation} :
      ReachableReservations rs →
      ReachableReservations (makeReservation request reservationId rs).2
  | cancel (reservationId customerEmail : String) {rs : List Reservation} :
      ReachableReservations rs →
      ReachableReservations (cancelReservation reservationId customerEmail rs).2

/-- Model of `ReservationService.formatReservation`. -/
def formatReservation (r : Reservation) : String :=
  "🍽️ **" ++ r.restaurantName ++ "**\n" ++
  "   📋 ID: " ++ r.id ++ "\n" ++
  "   📅 Date: " ++ r.date ++ "\n" ++
  "   🕐 Time: " ++ r.time ++ "\n" ++
  "   👥 Party Size: " ++ toString r.partySize ++ "\n" ++
  "   ✅ Status: " ++ r.status.toDisplay ++ "\n" ++
  "   " ++
  (match r.specialRequests with
   | some requests => "📝 Special Requests: " ++ requests ++ "\n"
   | none => "")

/-- Model of `ReservationService.formatReservationConfirmation`. -/
def formatReservationConfirmation (r : Reservation)
    (restaurantPhone : Option String) : String :=
  "🎉 **Reservation Confirmed!**\n\n" ++
  "📋 **IMPORTANT - YOUR RESERVATION ID: " ++ r.id ++ "**\n\n" ++
  "🍽️ Restaurant: " ++ r.restaurantName ++ "\n" ++
  "📅 Date: " ++ r.date ++ "\n" ++
  "🕐 Time: " ++ r.time ++ "\n" ++
  "👥 Party Size: " ++ toString r.partySize ++ "\n" ++
  "👤 Name: " ++ r.customerName ++ "\n" ++
  "📧 Email: " ++ r.customerEmail ++ "\n" ++
  "📞 Phone: " ++ r.customerPhone ++ "\n" ++
  (match r.specialRequests with
   | some requests => "📝 Special Requests: " ++ requests ++ "\n"
   | none => "") ++
  "\n✅ Status: " ++ r.status.toDisplay ++ "\n\n" ++
  "Please arrive 15 minutes early. " ++
  (match restaurantPhone with
   | some phone => "Call " ++ phone ++ " if you need to make changes."
   | none => "") ++
  "\n\n" ++
  "To view or cancel your reservation, use your reservation ID and email address."

/-- Model of `ReservationService.formatCancellationConfirmation`. -/
def formatCancellationConfirmation (r : Reservation) : String :=
  "✅ **Reservation Cancelled**\n\n" ++
  "📋 Confirmation #: " ++ r.id ++ "\n" ++
  "🍽️ Restaurant: " ++ r.restaurantName ++ "\n" ++
  "📅 Date: " ++ r.date ++ "\n" ++
  "🕐 Time: " ++ r.time ++ "\n\n" ++
  "Your reservation has been successfully cancelled."

/-! ## RestaurantService (`restaurant-service.ts`) -/

/-- One entry of a Yelp business's `categories` array. -/
structure YelpCategory where
  «alias» : String
  title : String
deriving DecidableEq, Repr

/-- The fields of the Yelp `location` object that the service reads
(the remaining address fields are never touched by the embedded code). -/
structure YelpLocation where
  display_address : List String
deriving DecidableEq, Repr

/-- The fields of a `YelpBusiness` that `convertYelpToRestaurant` reads.
`rating` and `review_count` arrive as unvalidated JSON numbers. -/
structure YelpBusiness where
  id : String
  name : String
  image_url : String
  url : String
  review_count : Nat
  categories : List YelpCategory
  rating : ℚ
  price : Option String
  display_phone : String
  location : YelpLocation
deriving DecidableEq, Repr

/-- The local `Restaurant` record. -/
structure Restaurant where
  id : String
  name : String
  cuisine : String
  location : String
  rating : ℚ
  priceLevel : Nat
  phone : Option String
  website : Option String
  imageUrl : Option String
  description : Option String
deriving DecidableEq, Repr

/-- Model of `RestaurantSearchFilters`. -/
structure RestaurantSearchFilters where
  location : Option String
  cuisine : Option String
  priceLevel : Option Nat
  minRating : Option ℚ
deriving DecidableEq, Repr

/-- Model of `RestaurantService.convertYelpToRestaurant`.  The two JavaScript
truthiness tests are kept: `categories.length > 0 ? ... : 'Restaurant'`
and `yelpBusiness.price ? yelpBusiness.price.length : 2` (an empty or
missing price string gives level 2). -/
def convertYelpToRestaurant (b : YelpBusiness) : Restaurant :=
  let primaryCuisine :=
    match b.categories with
    | [] => "Restaurant"
    | c :: _ => c.title
  let priceLevel :=
    match b.price with
    | some p => if p = "" then 2 else p.length
    | none => 2
  let location := String.intercalate ", " b.location.display_address
  { id := b.id
    name := b.name
    cuisine := primaryCuisine
    location := location
    rating := b.rating
    priceLevel := priceLevel
    phone := some b.display_phone
    website := some b.url
    imageUrl := some b.image_url
    description :=
      some (primaryCuisine ++ " restaurant with " ++ toString b.review_count
        ++ " reviews") }

/-- Model of `URLSearchParams.set`: replace the value of an existing key, else
append (all keys built by the service are distinct). -/
def paramsSet (ps : List (String × String)) (k v : String) :
    List (String × String) :=
  if ps.any (fun p => p.1 == k) then
    ps.map (fun p => if p.1 == k then (k, v) else p)
  else ps ++ [(k, v)]

/-- The `cuisineMap` of `searchRestaurants`. -/
def cuisineMap : List (String × String) :=
  [("italian", "italian"), ("japanese", "japanese"), ("french", "french"),
   ("indian", "indpak"), ("chinese", "chinese"), ("mexican", "mexican"),
   ("american", "newamerican"), ("thai", "thai"),
   ("mediterranean", "mediterranean")]

/-- Model of `cuisineMap[filters.cuisine.toLowerCase()] || filters.cuisine.toLowerCase()`. -/
def yelpCategoryFor (cuisine : String) : String :=
  let lowered := String.mk (jsToLower cuisine.data)
  match cuisineMap.find? (fun p => p.1 == lowered) with
  | some p => p.2
  | none => lowered

/-- Model of `Array.from({length: priceLevel}, (_, i) => i + 1).join(',')`. -/
def priceFilterString (priceLevel : Nat) : String :=
  String.intercalate "," (((List.range priceLevel).map (· + 1)).map toString)

/-- The Yelp query parameters `searchRestaurants` builds, in insertion
order.  JavaScript truthiness is kept at each `if (filters.x)` and at
`filters.location || 'San Francisco, CA'`: an empty string or a zero
behaves like an absent filter. -/
def buildYelpSearchParams (filters : RestaurantSearchFilters) :
    List (String × String) :=
  let ps := [("categories", "restaurants"), ("limit", "20"),
             ("sort_by", "best_match")]
  let location :=
    match filters.location with
    | some l => if l = "" then "San Francisco, CA" else l
    | none => "San Francisco, CA"
  let ps := ps ++ [("location", location)]
  let ps :=
    match filters.cuisine with
    | some c => if c = "" then ps else paramsSet ps "categories" (yelpCategoryFor c)
    | none => ps
  let ps :=
    match filters.priceLevel with
    | some pl => if pl = 0 then ps else ps ++ [("price", priceFilterString pl)]
    | none => ps
  ps

/-- The response post-processing of `RestaurantService.searchRestaurants`:
map the provider's businesses onto `Restaurant` and apply the minimum
rating locally — guarded by the JavaScript truthiness test
`if (filters.minRating)`, so a zero minimum skips the filter. -/
def searchRestaurantsFromResponse (filters : RestaurantSearchFilters)
    (businesses : List YelpBusiness) : List Restaurant :=
  let restaurants := businesses.map convertYelpToRestaurant
  match filters.minRating with
  | some m =>
    if m = 0 then restaurants
    else restaurants.filter (fun r => decide (m ≤ r.rating))
  | none => restaurants

/-- Model of `RestaurantService.formatRestaurant`.  The interpolated JavaScript
number `rating` is rendered by `toString`; what matters to the claims is
that the rendering is a function of the field. -/
def formatRestaurant (r : Restaurant) : String :=
  "🍽️ " ++ r.name ++ "\n\n" ++
  "Id: " ++ r.id ++ "\n" ++
  "Cuisine: " ++ r.cuisine ++ "\n" ++
  "Location: " ++ r.location ++ "\n" ++
  "Rating: " ++ toString r.rating ++ "/5 ⭐\n" ++
  "Price: $" ++ String.mk (List.replicate r.priceLevel '$') ++ "\n" ++
  (match r.description with
   | some d => d
   | none => "")

/-- Model of `RestaurantService.formatRestaurantDetails`. -/
def formatRestaurantDetails (r : Restaurant) : String :=
  "🍽️ " ++ r.name ++ "\n\n" ++
  "🍴 Cuisine: " ++ r.cuisine ++ "\n" ++
  "📍 Location: " ++ r.location ++ "\n" ++
  "⭐ Rating: " ++ toString r.rating ++ "/5\n" ++
  "💰 Price Level: " ++ String.mk (List.replicate r.priceLevel '$') ++ "\n" ++
  "📞 Phone: " ++
  (match r.phone with
   | some p => p
   | none => "Not available") ++ "\n" ++
  "🌐 Website: " ++
  (match r.website with
   | some w => w
   | none => "Not available") ++ "\n\n" ++
  "📝 Description: " ++
  (match r.description with
   | some d => d
   | none => "No description available")

/-! ## BookingService (travel planner) -/

/-- Model of `BookingConfirmation.status`. -/
inductive BookingStatus where
  | confirmed
  | pending
  | failed
deriving DecidableEq, Repr

/-- Model of `BookingConfirmation` (the `details` payload is not observed by any
claim and is omitted from the embedding). -/
structure BookingConfirmation where
  bookingId : String
  confirmationNumber : String
  status : BookingStatus
  totalPrice : ℚ
  currency : String
  bookingDate : String
deriving DecidableEq, Repr

/-- Model of `TravelPlan.status`. -/
inductive PlanStatus where
  | planning
  | booked
  | completed
  | cancelled
deriving DecidableEq, Repr

/-- The `TravelPlan` record. -/
structure TravelPlan where
  id : String
  title : String
  destinations : List String
  startDate : String
  endDate : String
  travelers : Nat
  budget : Option ℚ
  status : PlanStatus
  flights : List BookingConfirmation
  hotels : List BookingConfirmation
  createdAt : String
  updatedAt : String
deriving DecidableEq, Repr

/-- The complete field state of a `BookingService` instance: the class holds
only the access token — it has no field that could store a travel plan. -/
structure BookingServiceState where
  accessToken : String
deriving DecidableEq, Repr

/-- Model of `BookingService.createTravelPlan`: build the plan (`status:
'planning'`, no bookings), log it, and return it without storing anything.
The fabricated id and the two `new Date().toISOString()` stamps are passed
in as `planId` and `nowIso`. -/
def createTravelPlan (title : String) (destinations : List String)
    (startDate endDate : String) (travelers : Nat) (budget : Option ℚ)
    (planId nowIso : String) (st : BookingServiceState) :
    TravelPlan × BookingServiceState :=
  let plan : TravelPlan :=
    { id := planId
      title := title
      destinations := destinations
      startDate := startDate
      endDate := endDate
      travelers := travelers
      budget := budget
      status := .planning
      flights := []
      hotels := []
      createdAt := nowIso
      updatedAt := nowIso }
  (plan, st)

/-- Model of `BookingService.getTravelPlan`: ignore all state and return the
hard-coded mock plan carrying the requested id. -/
def getTravelPlan (planId : String) (_st : BookingServiceState) :
    Option TravelPlan :=
  some
    { id := planId
      title := "European Adventure"
      destinations := ["Paris", "Rome", "Barcelona"]
      startDate := "2024-06-15"
      endDate := "2024-06-25"
      travelers := 2
      budget := some 5000
      status := .planning
      flights := []
      hotels := []
      createdAt := "2024-01-15T10:00:00Z"
      updatedAt := "2024-01-15T10:00:00Z" }

/-! ## Declared zod parameter schemas and the MCP dispatch gate -/

/-- An inbound JSON argument value (the scalar shapes the schemas
distinguish). -/
inductive JsonArg where
  | num (x : ℚ)
  | str (s : String)
  | boolV (b : Bool)
deriving DecidableEq, Repr

/-- Model of `z.string()` on a required field. -/
def checkStr : Option JsonArg → Bool
  | some (.str _) => true
  | _ => false

/-- Model of `z.string().optional()`. -/
def checkOptStr : Option JsonArg → Bool
  | none => true
  | some (.str _) => true
  | _ => false

/-- Model of `z.number().min(lo).max(hi)` on a required field. -/
def checkNumRange (lo hi : ℚ) : Option JsonArg → Bool
  | some (.num x) => decide (lo ≤ x) && decide (x ≤ hi)
  | _ => false

/-- Model of `z.number().min(lo).max(hi).optional()`. -/
def checkOptNumRange (lo hi : ℚ) : Option JsonArg → Bool
  | none => true
  | some (.num x) => decide (lo ≤ x) && decide (x ≤ hi)
  | _ => false

/-- Raw arguments of `search_restaurants` before validation. -/
structure SearchRestaurantsArgs where
  location : Option JsonArg
  cuisine : Option JsonArg
  priceLevel : Option JsonArg
  minRating : Option JsonArg
deriving DecidableEq, Repr

/-- The declared `search_restaurants` schema (`tools/restaurant.ts`):
optional string `location` and `cuisine`, optional number `priceLevel`
in 1..4, optional number `minRating` in 1..5. -/
def validSearchRestaurantsArgs (a : SearchRestaurantsArgs) : Bool :=
  checkOptStr a.location && checkOptStr a.cuisine &&
  checkOptNumRange 1 4 a.priceLevel && checkOptNumRange 1 5 a.minRating

/-- Raw arguments of `check_availability` before validation. -/
structure CheckAvailabilityArgs where
  restaurantId : Option JsonArg
  date : Option JsonArg
  time : Option JsonArg
  partySize : Option JsonArg
deriving DecidableEq, Repr

/-- The declared `check_availability` schema (`tools/reservation.ts`):
required strings plus a required number `partySize` in 1..20. -/
def validCheckAvailabilityArgs (a : CheckAvailabilityArgs) : Bool :=
  checkStr a.restaurantId && checkStr a.date && checkStr a.time &&
  checkNumRange 1 20 a.partySize

/-- Raw arguments of `make_reservation` before validation. -/
structure MakeReservationArgs where
  restaurantId : Option JsonArg
  date : Option JsonArg
  time : Option JsonArg
  partySize : Option JsonArg
  customerName : Option JsonArg
  customerEmail : Option JsonArg
  customerPhone : Option JsonArg
  specialRequests : Option JsonArg
deriving DecidableEq, Repr

/-- The declared `make_reservation` schema: required strings, a required
number `partySize` in 1..20, and an optional string `specialRequests`. -/
def validMakeReservationArgs (a : MakeReservationArgs) : Bool :=
  checkStr a.restaurantId && checkStr a.date && checkStr a.time &&
  checkNumRange 1 20 a.partySize && checkStr a.customerName &&
  checkStr a.customerEmail && checkStr a.customerPhone &&
  checkOptStr a.specialRequests

/-- Outcome of one tool invocation at the dispatch layer. -/
inductive ToolOutcome (α : Type) where
  | rejected
  | handled (result : α)
deriving DecidableEq, Repr

/-- The MCP SDK `server.tool` wrapper, as the schema-validation gate the
specification describes: the registered handler — the only place an
outbound HTTP request is made — runs only after the arguments pass the
declared schema, and a failing parse produces a validation error without
touching the handler. -/
def dispatchTool {α β : Type} (valid : α → Bool) (handler : α → β)
    (args : α) : ToolOutcome β :=
  if valid args then .handled (handler args) else .rejected

/-! ## Per-tool catch-all error handlers -/

/-- A JavaScript thrown value: an `Error` carrying a message, or anything
else. -/
inductive JsThrown where
  | jsError (message : String)
  | nonError
deriving DecidableEq, Repr

/-- Model of `error instanceof Error ? error.message : 'Unknown error'`. -/
def thrownMessage : JsThrown → String
  | .jsError m => m
  | .nonError => "Unknown error"

/-- One `{ type: 'text', text }` content entry. -/
structure ToolText where
  type : String
  text : String
deriving DecidableEq, Repr

/-- The `{ content: [...] }` envelope every handler returns. -/
structure ToolResult where
  content : List ToolText
deriving DecidableEq, Repr

/-- A `try { body } catch (error) { return onErr(error) }` block around a
whole handler body: a thrown value never escapes the handler. -/
def jsTryCatch {α : Type} (body : Except JsThrown α) (onErr : JsThrown → α) : α :=
  match body with
  | .ok r => r
  | .error e => onErr e

/-- Build the single-text result every catch block returns. -/
def catchResult (before after : String) (e : JsThrown) : ToolResult :=
  ⟨[⟨"text", before ++ thrownMessage e ++ after⟩]⟩

/-- The catch block of `search_restaurants` (`tools/restaurant.ts`). -/
def searchRestaurantsOnError : JsThrown → ToolResult :=
  catchResult "❌ Error searching restaurants: " ""

/-- The catch block of `get_restaurant_details`. -/
def getRestaurantDetailsOnError : JsThrown → ToolResult :=
  catchResult "❌ Error fetching restaurant details: " ""

/-- The catch block of `check_availability` (`tools/reservation.ts`). -/
def checkAvailabilityOnError : JsThrown → ToolResult :=
  catchResult "❌ Error checking availability: " ""

/-- The catch block of `make_reservation`. -/
def makeReservationOnError : JsThrown → ToolResult :=
  catchResult "❌ Error making reservation: " ""

/-- The catch block of `view_reservations`. -/
def viewReservationsOnError : JsThrown → ToolResult :=
  catchResult "❌ Error retrieving reservations: " ""

/-- The catch block of `cancel_reservation`. -/
def cancelReservationOnError : JsThrown → ToolResult :=
  catchResult "❌ Error cancelling reservation: " ""

/-- The catch block of `search_flights` (`tools/flights.ts`). -/
def searchFlightsOnError : JsThrown → ToolResult :=
  catchResult "Error searching flights: " ""

/-- The catch block of `book_flight`. -/
def bookFlightOnError : JsThrown → ToolResult :=
  catchResult "❌ Flight booking failed: "
    "\n\nPlease check your information and try again."

/-- The shape of every sentence the summarizer can select: nonempty (its
trimmed length exceeds 20) and trimmed, so it neither starts nor ends with
whitespace.  This is what makes the final `join('. ') + '.'` add no words. -/
def goodSentence (s : List Char) : Prop :=
  s ≠ [] ∧ (∀ c, s.head? = some c → isWsChar c = false) ∧
  lastD isWsChar false s = false

/-! ## Helper lemmas: splitting, trimming and joining -/

theorem dropWhile_cons_pos (p : Char → Bool) (a : Char) (l : List Char)
    (h : p a = true) : List.dropWhile p (a :: l) = List.dropWhile p l := by
  simp [List.dropWhile_cons, h]

theorem dropWhile_cons_neg (p : Char → Bool) (a : Char) (l : List Char)
    (h : p a = false) : List.dropWhile p (a :: l) = a :: l := by
  simp [List.dropWhile_cons, h]

theorem segCount_cons_pos (p : Char → Bool) (b : Bool) (c : Char)
    (cs : List Char) (h : p c = true) :
    segCount p b (c :: cs) = (if b then 0 else 1) + segCount p true cs := by
  simp [segCount, h]

theorem segCount_cons_neg (p : Char → Bool) (b : Bool) (c : Char)
    (cs : List Char) (h : p c = false) :
    segCount p b (c :: cs) = segCount p false cs := by
  simp [segCount, h]

theorem jsSplitAux_length (p : Char → Bool) (cs : List Char) :
    ∀ (b : Bool) (cur : List Char),
      (jsSplitAux p b cur cs).length = segCount p b cs := by
  induction cs with
  | nil => intro b cur; rfl
  | cons c cs ih =>
    intro b cur
    cases hpc : p c with
    | true =>
      rw [segCount_cons_pos p b c cs hpc]
      cases b <;> simp [jsSplitAux, hpc, ih] <;> omega
    | false =>
      rw [segCount_cons_neg p b c cs hpc]
      simp [jsSplitAux, hpc, ih]

theorem wordsOf_eq_segCount (s : List Char) :
    wordsOf s = segCount isWsChar false s :=
  jsSplitAux_length isWsChar s false []

theorem segCount_append (p : Char → Bool) (a : List Char) :
    ∀ (b : List Char) (sb : Bool),
      segCount p sb (a ++ b) + 1 =
        segCount p sb a + segCount p (lastD p sb a) b := by
  induction a with
  | nil => intro b sb; simp [segCount, lastD]; omega
  | cons c a ih =>
    intro b sb
    rw [List.cons_append, lastD]
    cases hpc : p c with
    | true =>
      rw [segCount_cons_pos p sb c (a ++ b) hpc, segCount_cons_pos p sb c a hpc]
      have := ih b true
      omega
    | false =>
      rw [segCount_cons_neg p sb c (a ++ b) hpc, segCount_cons_neg p sb c a hpc]
      exact ih b false

theorem segCount_head_switch (p : Char → Bool) (c : Char) (l : List Char)
    (h : p c = false) : segCount p true (c :: l) = segCount p false (c :: l) := by
  rw [segCount_cons_neg p true c l h, segCount_cons_neg p false c l h]

theorem head?_dropWhile (p : Char → Bool) (l : List Char) :
    ∀ c, (l.dropWhile p).head? = some c → p c = false := by
  induction l with
  | nil => intro c h; simp [List.dropWhile] at h
  | cons a l ih =>
    intro c h
    cases hpa : p a with
    | true =>
      rw [dropWhile_cons_pos p a l hpa] at h
      exact ih c h
    | false =>
      rw [dropWhile_cons_neg p a l hpa] at h
      simp at h
      exact h ▸ hpa

theorem getLast?_dropWhile (p : Char → Bool) (l : List Char) :
    l.dropWhile p ≠ [] → (l.dropWhile p).getLast? = l.getLast? := by
  induction l with
  | nil => intro h; simp [List.dropWhile] at h
  | cons a l ih =>
    intro h
    cases hpa : p a with
    | false => rw [dropWhile_cons_neg p a l hpa]
    | true =>
      rw [dropWhile_cons_pos p a l hpa] at h ⊢
      have hl : l ≠ [] := by
        intro e
        rw [e] at h
        simp [List.dropWhile] at h
      rw [ih h]
      cases l with
      | nil => exact absurd rfl hl
      | cons b t => rfl

theorem lastD_eq_getLast? (p : Char → Bool) (l : List Char) :
    ∀ b, lastD p b l = ((l.getLast?).map p).getD b := by
  induction l with
  | nil => intro b; rfl
  | cons c l ih =>
    intro b
    rw [lastD, ih (p c)]
    cases l with
    | nil => rfl
    | cons d t => rfl

theorem trimChars_head (y : List Char) :
    ∀ c, (trimChars y).head? = some c → isWsChar c = false := by
  intro c h
  unfold trimChars at h
  rw [List.head?_reverse] at h
  have hz : (y.dropWhile isWsChar).reverse.dropWhile isWsChar ≠ [] := by
    intro e
    rw [e] at h
    simp at h
  rw [getLast?_dropWhile isWsChar _ hz, List.getLast?_reverse] at h
  exact head?_dropWhile isWsChar y c h

theorem trimChars_lastD (y : List Char) (h : trimChars y ≠ []) :
    lastD isWsChar false (trimChars y) = false := by
  rw [lastD_eq_getLast?]
  unfold trimChars at h ⊢
  rw [List.getLast?_reverse]
  cases hh : ((y.dropWhile isWsChar).reverse.dropWhile isWsChar).head? with
  | none =>
    rw [List.head?_eq_none_iff] at hh
    rw [hh] at h
    simp at h
  | some c =>
    have := head?_dropWhile isWsChar (y.dropWhile isWsChar).reverse c hh
    simp [this]

theorem segCount_joinSel :
    ∀ (sel : List (List Char)), (∀ s ∈ sel, goodSentence s) →
      segCount isWsChar false (joinSel sel ++ ['.']) =
        if sel.isEmpty then 1 else (sel.map (segCount isWsChar false)).sum := by
  intro sel
  induction sel with
  | nil => intro _; decide
  | cons s rest ih =>
    intro hgood
    obtain ⟨hne, hhead, hlast⟩ := hgood s (List.mem_cons_self s rest)
    have hdot : segCount isWsChar false ['.'] = 1 := by decide
    cases rest with
    | nil =>
      have hj : joinSel [s] ++ ['.'] = s ++ ['.'] := by simp [joinSel]
      rw [hj]
      have happ := segCount_append isWsChar s ['.'] false
      rw [hlast, hdot] at happ
      simp only [List.isEmpty_cons, List.map_cons, List.map_nil, List.sum_cons,
        List.sum_nil, if_neg Bool.false_ne_true]
      omega
    | cons s2 rest2 =>
      have hgood2 : ∀ t ∈ s2 :: rest2, goodSentence t :=
        fun t ht => hgood t (List.mem_cons_of_mem _ ht)
      have ih2 := ih hgood2
      obtain ⟨c, s2', hs2⟩ : ∃ c s2', s2 = c :: s2' := by
        cases hsc : s2 with
        | nil => exact absurd hsc (hgood2 s2 (List.mem_cons_self s2 rest2)).1
        | cons c t => exact ⟨c, t, rfl⟩
      have hcw : isWsChar c = false :=
        (hgood2 s2 (List.mem_cons_self s2 rest2)).2.1 c (by rw [hs2]; rfl)
      -- the tail after `s. ` starts with the head of `s2`
      have hY : ∃ tail, joinSel (s2 :: rest2) ++ ['.'] = c :: tail := by
        refine ⟨s2' ++ (if rest2.isEmpty then [] else '.' :: ' ' :: joinSel rest2)
          ++ ['.'], ?_⟩
        simp [joinSel, hs2]
      obtain ⟨tail, htail⟩ := hY
      -- join = s ++ '.' :: ' ' :: (join of the rest)
      have hshape : joinSel (s :: s2 :: rest2) ++ ['.'] =
          s ++ ('.' :: ' ' :: (joinSel (s2 :: rest2) ++ ['.'])) := by
        simp [joinSel]
      rw [hshape]
      have happ := segCount_append isWsChar s
        ('.' :: ' ' :: (joinSel (s2 :: rest2) ++ ['.'])) false
      rw [hlast] at happ
      have hdotc : isWsChar '.' = false := rfl
      have hspc : isWsChar ' ' = true := rfl
      rw [segCount_cons_neg isWsChar false '.' _ hdotc,
        segCount_cons_pos isWsChar false ' ' _ hspc] at happ
      rw [htail, segCount_head_switch isWsChar c tail hcw, ← htail, ih2] at happ
      simp only [List.isEmpty_cons] at ih2 happ ⊢
      simp only [if_neg Bool.false_ne_true, List.map_cons, List.sum_cons] at happ ⊢
      omega

theorem mem_insertDescBy {α : Type} (key : α → Nat) (a x : α) :
    ∀ l, x ∈ insertDescBy key a l → x = a ∨ x ∈ l := by
  intro l
  induction l with
  | nil => intro h; simp [insertDescBy] at h; exact Or.inl h
  | cons y ys ih =>
    intro h
    rw [insertDescBy] at h
    by_cases hk : key y < key a
    · rw [if_pos hk] at h
      rcases List.mem_cons.mp h with h | h
      · exact Or.inl h
      · exact Or.inr h
    · rw [if_neg hk] at h
      rcases List.mem_cons.mp h with h | h
      · exact Or.inr (h ▸ List.mem_cons_self y ys)
      · rcases ih h with h' | h'
        · exact Or.inl h'
        · exact Or.inr (List.mem_cons_of_mem y h')

theorem mem_sortDescBy {α : Type} (key : α → Nat) (x : α) :
    ∀ l, x ∈ sortDescBy key l → x ∈ l := by
  intro l
  induction l with
  | nil => intro h; simp [sortDescBy] at h
  | cons y ys ih =>
    intro h
    rw [sortDescBy] at h
    rcases mem_insertDescBy key y x _ h with h' | h'
    · exact h' ▸ List.mem_cons_self y ys
    · exact List.mem_cons_of_mem y (ih h')

theorem mem_scoreSentences (keywords : List (List Char)) (total : Nat)
    (x : ScoredSentence) :
    ∀ (i : Nat) (ss : List (List Char)),
      x ∈ scoreSentences keywords total i ss → x.sentence ∈ ss := by
  intro i ss
  induction ss generalizing i with
  | nil => intro h; simp [scoreSentences] at h
  | cons s rest ih =>
    intro h
    rw [scoreSentences] at h
    rcases List.mem_cons.mp h with h' | h'
    · rw [h']
      exact List.mem_cons_self s rest
    · exact List.mem_cons_of_mem s (ih (i + 1) h')

theorem selectSentences_subset (maxLength : Nat) :
    ∀ (items : List ScoredSentence) (wc : Nat) (s : List Char),
      s ∈ selectSentences maxLength items wc →
        ∃ it ∈ items, s = it.sentence := by
  intro items
  induction items with
  | nil => intro wc s h; simp [selectSentences] at h
  | cons item rest ih =>
    intro wc s h
    rw [selectSentences] at h
    by_cases hb : wc + wordsOf item.sentence ≤ maxLength
    · rw [if_pos hb] at h
      rcases List.mem_cons.mp h with h' | h'
      · exact ⟨item, List.mem_cons_self item rest, h'⟩
      · obtain ⟨it, hit, he⟩ := ih _ s h'
        exact ⟨it, List.mem_cons_of_mem item hit, he⟩
    · rw [if_neg hb] at h
      obtain ⟨it, hit, he⟩ := ih _ s h
      exact ⟨it, List.mem_cons_of_mem item hit, he⟩

theorem selectSentences_sum (maxLength : Nat) :
    ∀ (items : List ScoredSentence) (wc : Nat), wc ≤ maxLength →
      wc + ((selectSentences maxLength items wc).map wordsOf).sum ≤ maxLength := by
  intro items
  induction items with
  | nil => intro wc h; simpa [selectSentences] using h
  | cons item rest ih =>
    intro wc h
    rw [selectSentences]
    by_cases hb : wc + wordsOf item.sentence ≤ maxLength
    · rw [if_pos hb]
      have := ih (wc + wordsOf item.sentence) hb
      simp only [List.map_cons, List.sum_cons]
      omega
    · rw [if_neg hb]
      exact ih wc h

theorem mem_summary_sentences_good (cs : List Char) (s : List Char)
    (h : s ∈ ((jsSplit isSentenceSepChar cs).map trimChars).filter
      (fun s => 20 < s.length)) : goodSentence s := by
  obtain ⟨hmem, hlen⟩ := List.mem_filter.mp h
  obtain ⟨y, _, hy⟩ := List.mem_map.mp hmem
  have hlen' : 20 < s.length := by simpa using hlen
  have hne : s ≠ [] := by
    intro e
    rw [e] at hlen'
    simp at hlen'
  refine ⟨hne, ?_, ?_⟩
  · rw [← hy]
    exact trimChars_head y
  · rw [← hy]
    exact trimChars_lastD y (hy ▸ hne)

theorem summary_budget_core (maxLength : Nat) (hmax : 1 ≤ maxLength)
    (src : List (List Char)) (hgood : ∀ s ∈ src, goodSentence s)
    (items : List ScoredSentence) (hitems : ∀ it ∈ items, it.sentence ∈ src) :
    wordsOf (joinSel (selectSentences maxLength items 0) ++ ['.']) ≤ maxLength := by
  have hsel : ∀ s ∈ selectSentences maxLength items 0, goodSentence s := by
    intro s hs
    obtain ⟨it, hit, he⟩ := selectSentences_subset maxLength items 0 s hs
    exact hgood it.sentence (hitems it hit) |>.imp id id |> (he ▸ ·)
  rw [wordsOf_eq_segCount, segCount_joinSel _ hsel]
  cases hsempty : (selectSentences maxLength items 0).isEmpty with
  | true => simpa using hmax
  | false =>
    simp only [if_neg Bool.false_ne_true]
    have hsum := selectSentences_sum maxLength items 0 (Nat.zero_le _)
    have hmaps :
        ((selectSentences maxLength items 0).map (segCount isWsChar false)).sum =
          ((selectSentences maxLength items 0).map wordsOf).sum := by
      have : (selectSentences maxLength items 0).map (segCount isWsChar false) =
          (selectSentences maxLength items 0).map wordsOf := by
        apply List.map_congr_left
        intro s _
        exact (wordsOf_eq_segCount s).symm
      rw [this]
    omega

/-! ## Claim theorems -/

/-- C2 (amended): for every content string and every word budget
`maxLength ≥ 1`, the string `extractiveSummary` returns contains at most
`maxLength` words, counting words by splitting on whitespace.  (At budget
0 the summary is `"."`, which counts as one word — see the
counterexample.) -/
theorem extractiveSummary_word_budget (content : String) (maxLength : Nat)
    (hmax : 1 ≤ maxLength) :
    countWords (extractiveSummary content maxLength) ≤ maxLength := by
  have hgood : ∀ s ∈ ((jsSplit isSentenceSepChar content.data).map
      trimChars).filter (fun s => 20 < s.length), goodSentence s :=
    fun s hs => mem_summary_sentences_good content.data s hs
  have hitems : ∀ it ∈ sortDescBy ScoredSentence.score
      (scoreSentences (extractKeywords content.data)
        (((jsSplit isSentenceSepChar content.data).map trimChars).filter
          (fun s => 20 < s.length)).length 0
        (((jsSplit isSentenceSepChar content.data).map trimChars).filter
          (fun s => 20 < s.length))),
      it.sentence ∈ ((jsSplit isSentenceSepChar content.data).map
        trimChars).filter (fun s => 20 < s.length) :=
    fun it hit =>
      mem_scoreSentences _ _ it 0 _ (mem_sortDescBy ScoredSentence.score it _ hit)
  exact summary_budget_core maxLength hmax _ hgood _ hitems

/-- C2, the claim as frozen, is false: at word budget 0 the summarizer
returns `"."`, which contains one word when split on whitespace. -/
theorem extractiveSummary_word_budget_counterexample :
    countWords (extractiveSummary "" 0) = 1 ∧
    ¬ countWords (extractiveSummary "" 0) ≤ 0 := by
  decide

/-- Witness for the amended C2 theorem at a concrete input. -/
theorem extractiveSummary_word_budget_witness :
    1 ≤ 5 ∧ countWords (extractiveSummary "Hello there." 5) ≤ 5 :=
  ⟨by decide, extractiveSummary_word_budget "Hello there." 5 (by decide)⟩

/-- C1: a successful `cancelReservation` leaves the returned reservation
with status exactly `cancelled`, and repeating the call with the same
reservation id and customer email on the resulting state succeeds again,
returning the same reservation (still `cancelled`) and leaving the state
unchanged — cancellation is idempotent, not rejected. -/
theorem cancelReservation_cancelled_idempotent
    (rs : List Reservation) (rid email : String) (r : Reservation)
    (rs' : List Reservation)
    (h : cancelReservation rid email rs = (some r, rs')) :
    r.status = ResStatus.cancelled ∧
    cancelReservation rid email rs' = (some r, rs') := by
  induction rs generalizing rs' with
  | nil => simp [cancelReservation] at h
  | cons q rest ih =>
    rw [cancelReservation] at h
    by_cases hm : resMatches rid email q = true
    · rw [if_pos hm] at h
      have h1 : some { q with status := ResStatus.cancelled } = some r :=
        congrArg Prod.fst h
      have h2 : { q with status := ResStatus.cancelled } :: rest = rs' :=
        congrArg Prod.snd h
      have hr : r = { q with status := ResStatus.cancelled } :=
        (Option.some.inj h1).symm
      subst hr
      subst h2
      refine ⟨rfl, ?_⟩
      rw [cancelReservation]
      have hm' : resMatches rid email { q with status := ResStatus.cancelled }
          = true := by simpa [resMatches, emailMatches] using hm
      rw [if_pos hm']
    · rw [if_neg hm] at h
      have h1 : (cancelReservation rid email rest).1 = some r :=
        congrArg Prod.fst h
      have h2 : q :: (cancelReservation rid email rest).2 = rs' :=
        congrArg Prod.snd h
      have hp : cancelReservation rid email rest =
          (some r, (cancelReservation rid email rest).2) := by rw [← h1]
      obtain ⟨hst, hidem⟩ := ih _ hp
      refine ⟨hst, ?_⟩
      subst h2
      rw [cancelReservation, if_neg hm, hidem]

/-- Witness for C1: cancelling a concrete stored reservation and then
cancelling it again. -/
theorem cancelReservation_cancelled_idempotent_witness :
    Reservation.status
      { id := "res_1", restaurantId := "y1", restaurantName := "",
        date := "2024-08-15", time := "7:00 PM", partySize := 2,
        customerName := "Ada", customerEmail := "a@b.com",
        customerPhone := "555", status := ResStatus.cancelled,
        specialRequests := none } = ResStatus.cancelled ∧
    cancelReservation "res_1" "a@b.com"
      [{ id := "res_1", restaurantId := "y1", restaurantName := "",
         date := "2024-08-15", time := "7:00 PM", partySize := 2,
         customerName := "Ada", customerEmail := "a@b.com",
         customerPhone := "555", status := ResStatus.cancelled,
         specialRequests := none }] =
      (some
        { id := "res_1", restaurantId := "y1", restaurantName := "",
          date := "2024-08-15", time := "7:00 PM", partySize := 2,
          customerName := "Ada", customerEmail := "a@b.com",
          customerPhone := "555", status := ResStatus.cancelled,
          specialRequests := none },
       [{ id := "res_1", restaurantId := "y1", restaurantName := "",
          date := "2024-08-15", time := "7:00 PM", partySize := 2,
          customerName := "Ada", customerEmail := "a@b.com",
          customerPhone := "555", status := ResStatus.cancelled,
          specialRequests := none }]) :=
  cancelReservation_cancelled_idempotent
    [{ id := "res_1", restaurantId := "y1", restaurantName := "",
       date := "2024-08-15", time := "7:00 PM", partySize := 2,
       customerName := "Ada", customerEmail := "a@b.com",
       customerPhone := "555", status := ResStatus.confirmed,
       specialRequests := none }]
    "res_1" "a@b.com" _ _ (by decide)

/-- C8 (frame property): a successful `cancelReservation` rewrites exactly
the first matching reservation, changing only its `status` field to
`cancelled`; the reservations before it (all non-matching), the
reservations after it, and the length and order of the list are
untouched. -/
theorem cancelReservation_frame (rs : List Reservation) (rid email : String)
    (r : Reservation) (rs' : List Reservation)
    (h : cancelReservation rid email rs = (some r, rs')) :
    ∃ pre q post,
      rs = pre ++ q :: post ∧
      (∀ x ∈ pre, resMatches rid email x = false) ∧
      resMatches rid email q = true ∧
      r = { q with status := ResStatus.cancelled } ∧
      rs' = pre ++ r :: post := by
  induction rs generalizing rs' with
  | nil => simp [cancelReservation] at h
  | cons q0 rest ih =>
    rw [cancelReservation] at h
    by_cases hm : resMatches rid email q0 = true
    · rw [if_pos hm] at h
      have h1 : some { q0 with status := ResStatus.cancelled } = some r :=
        congrArg Prod.fst h
      have h2 : { q0 with status := ResStatus.cancelled } :: rest = rs' :=
        congrArg Prod.snd h
      have hr : r = { q0 with status := ResStatus.cancelled } :=
        (Option.some.inj h1).symm
      subst hr
      exact ⟨[], q0, rest, rfl, by simp, hm, rfl, by rw [← h2]; rfl⟩
    · rw [if_neg hm] at h
      have hmf : resMatches rid email q0 = false := by simpa using hm
      have h1 : (cancelReservation rid email rest).1 = some r :=
        congrArg Prod.fst h
      have h2 : q0 :: (cancelReservation rid email rest).2 = rs' :=
        congrArg Prod.snd h
      have hp : cancelReservation rid email rest =
          (some r, (cancelReservation rid email rest).2) := by rw [← h1]
      obtain ⟨pre, q, post, e1, e2, e3, e4, e5⟩ := ih _ hp
      refine ⟨q0 :: pre, q, post, by rw [List.cons_append, ← e1], ?_, e3, e4, ?_⟩
      · intro x hx
        rcases List.mem_cons.mp hx with hx | hx
        · rw [hx]
          exact hmf
        · exact e2 x hx
      · rw [← h2, e5]
        rfl

/-- Witness for C8 at a concrete two-element state: the non-matching
first reservation survives unchanged. -/
theorem cancelReservation_frame_witness :
    ∃ pre q post,
      [{ id := "res_0", restaurantId := "y0", restaurantName := "",
         date := "2024-08-14", time := "6:00 PM", partySize := 4,
         customerName := "Bob", customerEmail := "b@b.com",
         customerPhone := "111", status := ResStatus.confirmed,
         specialRequests := none },
       { id := "res_1", restaurantId := "y1", restaurantName := "",
         date := "2024-08-15", time := "7:00 PM", partySize := 2,
         customerName := "Ada", customerEmail := "a@b.com",
         customerPhone := "555", status := ResStatus.confirmed,
         specialRequests := some "window seat" }] = pre ++ q :: post ∧
      (∀ x ∈ pre, resMatches "res_1" "a@b.com" x = false) ∧
      resMatches "res_1" "a@b.com" q = true ∧
      ({ id := "res_1", restaurantId := "y1", restaurantName := "",
         date := "2024-08-15", time := "7:00 PM", partySize := 2,
         customerName := "Ada", customerEmail := "a@b.com",
         customerPhone := "555", status := ResStatus.cancelled,
         specialRequests := some "window seat" } : Reservation) =
        { q with status := ResStatus.cancelled } ∧
      [{ id := "res_0", restaurantId := "y0", restaurantName := "",
         date := "2024-08-14", time := "6:00 PM", partySize := 4,
         customerName := "Bob", customerEmail := "b@b.com",
         customerPhone := "111", status := ResStatus.confirmed,
         specialRequests := none },
       { id := "res_1", restaurantId := "y1", restaurantName := "",
         date := "2024-08-15", time := "7:00 PM", partySize := 2,
         customerName := "Ada", customerEmail := "a@b.com",
         customerPhone := "555", status := ResStatus.cancelled,
         specialRequests := some "window seat" }] = pre ++
        { id := "res_1", restaurantId := "y1", restaurantName := "",
          date := "2024-08-15", time := "7:00 PM", partySize := 2,
          customerName := "Ada", customerEmail := "a@b.com",
          customerPhone := "555", status := ResStatus.cancelled,
          specialRequests := some "window seat" } :: post :=
  cancelReservation_frame
    [{ id := "res_0", restaurantId := "y0", restaurantName := "",
       date := "2024-08-14", time := "6:00 PM", partySize := 4,
       customerName := "Bob", customerEmail := "b@b.com",
       customerPhone := "111", status := ResStatus.confirmed,
       specialRequests := none },
     { id := "res_1", restaurantId := "y1", restaurantName := "",
       date := "2024-08-15", time := "7:00 PM", partySize := 2,
       customerName := "Ada", customerEmail := "a@b.com",
       customerPhone := "555", status := ResStatus.confirmed,
       specialRequests := some "window seat" }]
    "res_1" "a@b.com" _ _ (by decide)

theorem mem_cancelReservation_snd (rid email : String) :
    ∀ (rs : List Reservation) (x : Reservation),
      x ∈ (cancelReservation rid email rs).2 →
      x ∈ rs ∨ ∃ y ∈ rs, x = { y with status := ResStatus.cancelled } := by
  intro rs
  induction rs with
  | nil => intro x h; simp [cancelReservation] at h
  | cons q rest ih =>
    intro x h
    rw [cancelReservation] at h
    by_cases hm : resMatches rid email q = true
    · rw [if_pos hm] at h
      rcases List.mem_cons.mp h with h' | h'
      · exact Or.inr ⟨q, List.mem_cons_self q rest, h'⟩
      · exact Or.inl (List.mem_cons_of_mem q h')
    · rw [if_neg hm] at h
      rcases List.mem_cons.mp h with h' | h'
      · exact Or.inl (h' ▸ List.mem_cons_self q rest)
      · rcases ih x h' with h'' | ⟨y, hy, he⟩
        · exact Or.inl (List.mem_cons_of_mem q h'')
        · exact Or.inr ⟨y, List.mem_cons_of_mem q hy, he⟩

/-- C9 (state invariant): in every reservation-list state reachable by any
sequence of `makeReservation` and `cancelReservation` calls, every stored
reservation has status `confirmed` or `cancelled` — the declared third
value `pending` never occurs; and `makeReservation` always returns a
reservation whose status is exactly `confirmed`. -/
theorem reservation_status_invariant (rs : List Reservation)
    (h : ReachableReservations rs) :
    (∀ r ∈ rs, r.status = ResStatus.confirmed ∨
      r.status = ResStatus.cancelled) ∧
    ∀ (request : ReservationRequest) (reservationId : String)
      (rs0 : List Reservation),
      (makeReservation request reservationId rs0).1.status =
        ResStatus.confirmed := by
  refine ⟨?_, fun _ _ _ => rfl⟩
  induction h with
  | init => intro r hr; simp at hr
  | make request reservationId hre ih =>
    intro r hr
    simp only [makeReservation] at hr
    rcases List.mem_append.mp hr with h' | h'
    · exact ih r h'
    · left
      rw [List.mem_singleton.mp h']
  | cancel reservationId customerEmail hre ih =>
    intro r hr
    rcases mem_cancelReservation_snd reservationId customerEmail _ r hr
      with h' | ⟨y, hy, he⟩
    · exact ih r h'
    · right
      rw [he]

/-- Witness for C9 at the initial (empty) state. -/
theorem reservation_status_invariant_witness :
    (∀ r ∈ ([] : List Reservation), r.status = ResStatus.confirmed ∨
      r.status = ResStatus.cancelled) ∧
    ∀ (request : ReservationRequest) (reservationId : String)
      (rs0 : List Reservation),
      (makeReservation request reservationId rs0).1.status =
        ResStatus.confirmed :=
  reservation_status_invariant [] ReachableReservations.init

/-- C10 (case-insensitive email matching): the customer-email arguments of
`getReservationsByEmail`, `getReservationByIdAndEmail` and
`cancelReservation` are compared through `toLowerCase`, so any two email
strings equal up to ASCII letter case — i.e. with the same lower-casing —
give identical results; in particular any case variant of a stored
customer email behaves like the stored email itself. -/
theorem reservation_email_case_insensitive (e1 e2 : String)
    (h : jsToLower e1.data = jsToLower e2.data) :
    ∀ (rs : List Reservation) (rid : String),
      getReservationsByEmail e1 rs = getReservationsByEmail e2 rs ∧
      getReservationByIdAndEmail rid e1 rs =
        getReservationByIdAndEmail rid e2 rs ∧
      cancelReservation rid e1 rs = cancelReservation rid e2 rs := by
  have hem : ∀ x : String, emailMatches x e1 = emailMatches x e2 := by
    intro x
    unfold emailMatches
    rw [h]
  have hrm : ∀ (rid : String) (r : Reservation),
      resMatches rid e1 r = resMatches rid e2 r := by
    intro rid r
    unfold resMatches
    rw [hem]
  intro rs rid
  refine ⟨?_, ?_, ?_⟩
  · unfold getReservationsByEmail
    exact List.filter_congr (fun r _ => hem r.customerEmail)
  · unfold getReservationByIdAndEmail
    congr 1
    funext r
    exact hrm rid r
  · induction rs with
    | nil => rfl
    | cons q rest ih =>
      rw [cancelReservation, cancelReservation, hrm rid q]
      by_cases hm : resMatches rid e2 q = true
      · simp only [if_pos hm]
      · simp only [if_neg hm, ih]

/-- Witness for C10: an upper-cased variant of a stored email behaves like
the stored email for all three operations. -/
theorem reservation_email_case_insensitive_witness :
    getReservationsByEmail "ALICE@X.COM"
      [{ id := "res_1", restaurantId := "y1", restaurantName := "",
         date := "2024-08-15", time := "7:00 PM", partySize := 2,
         customerName := "Ada", customerEmail := "alice@x.com",
         customerPhone := "555", status := ResStatus.confirmed,
         specialRequests := none }] =
      getReservationsByEmail "alice@x.com"
      [{ id := "res_1", restaurantId := "y1", restaurantName := "",
         date := "2024-08-15", time := "7:00 PM", partySize := 2,
         customerName := "Ada", customerEmail := "alice@x.com",
         customerPhone := "555", status := ResStatus.confirmed,
         specialRequests := none }] ∧
    getReservationByIdAndEmail "res_1" "ALICE@X.COM"
      [{ id := "res_1", restaurantId := "y1", restaurantName := "",
         date := "2024-08-15", time := "7:00 PM", partySize := 2,
         customerName := "Ada", customerEmail := "alice@x.com",
         customerPhone := "555", status := ResStatus.confirmed,
         specialRequests := none }] =
      getReservationByIdAndEmail "res_1" "alice@x.com"
      [{ id := "res_1", restaurantId := "y1", restaurantName := "",
         date := "2024-08-15", time := "7:00 PM", partySize := 2,
         customerName := "Ada", customerEmail := "alice@x.com",
         customerPhone := "555", status := ResStatus.confirmed,
         specialRequests := none }] ∧
    cancelReservation "res_1" "ALICE@X.COM"
      [{ id := "res_1", restaurantId := "y1", restaurantName := "",
         date := "2024-08-15", time := "7:00 PM", partySize := 2,
         customerName := "Ada", customerEmail := "alice@x.com",
         customerPhone := "555", status := ResStatus.confirmed,
         specialRequests := none }] =
      cancelReservation "res_1" "alice@x.com"
      [{ id := "res_1", restaurantId := "y1", restaurantName := "",
         date := "2024-08-15", time := "7:00 PM", partySize := 2,
         customerName := "Ada", customerEmail := "alice@x.com",
         customerPhone := "555", status := ResStatus.confirmed,
         specialRequests := none }] :=
  reservation_email_case_insensitive "ALICE@X.COM" "alice@x.com" (by decide)
    [{ id := "res_1", restaurantId := "y1", restaurantName := "",
       date := "2024-08-15", time := "7:00 PM", partySize := 2,
       customerName := "Ada", customerEmail := "alice@x.com",
       customerPhone := "555", status := ResStatus.confirmed,
       specialRequests := none }] "res_1"

/-- C4: the five formatting functions are pure and total — on equal input
records (including records where every optional field is absent) they
return, without any possibility of failure, the identical string.  In this
embedding each formatter is a total function into `String`, so totality
over the optional fields is definitional and purity is determinism. -/
theorem formatters_pure_total (r1 r2 : Reservation) (p1 p2 : Option String)
    (t1 t2 : Restaurant) (hr : r1 = r2) (hp : p1 = p2) (ht : t1 = t2) :
    formatReservation r1 = formatReservation r2 ∧
    formatReservationConfirmation r1 p1 = formatReservationConfirmation r2 p2 ∧
    formatCancellationConfirmation r1 = formatCancellationConfirmation r2 ∧
    formatRestaurant t1 = formatRestaurant t2 ∧
    formatRestaurantDetails t1 = formatRestaurantDetails t2 := by
  subst hr
  subst hp
  subst ht
  exact ⟨rfl, rfl, rfl, rfl, rfl⟩

/-- Witness for C4 at records with every optional field absent
(`specialRequests`, the confirmation's `restaurantPhone`, and the
restaurant's `phone`, `website`, `imageUrl`, `description` all missing). -/
theorem formatters_pure_total_witness :
    formatReservation
      { id := "res_1", restaurantId := "y1", restaurantName := "Chez Nous",
        date := "2024-08-15", time := "7:00 PM", partySize := 2,
        customerName := "Ada", customerEmail := "a@b.com",
        customerPhone := "555", status := ResStatus.confirmed,
        specialRequests := none } =
    formatReservation
      { id := "res_1", restaurantId := "y1", restaurantName := "Chez Nous",
        date := "2024-08-15", time := "7:00 PM", partySize := 2,
        customerName := "Ada", customerEmail := "a@b.com",
        customerPhone := "555", status := ResStatus.confirmed,
        specialRequests := none } ∧
    formatReservationConfirmation
      { id := "res_1", restaurantId := "y1", restaurantName := "Chez Nous",
        date := "2024-08-15", time := "7:00 PM", partySize := 2,
        customerName := "Ada", customerEmail := "a@b.com",
        customerPhone := "555", status := ResStatus.confirmed,
        specialRequests := none } none =
    formatReservationConfirmation
      { id := "res_1", restaurantId := "y1", restaurantName := "Chez Nous",
        date := "2024-08-15", time := "7:00 PM", partySize := 2,
        customerName := "Ada", customerEmail := "a@b.com",
        customerPhone := "555", status := ResStatus.confirmed,
        specialRequests := none } none ∧
    formatCancellationConfirmation
      { id := "res_1", restaurantId := "y1", restaurantName := "Chez Nous",
        date := "2024-08-15", time := "7:00 PM", partySize := 2,
        customerName := "Ada", customerEmail := "a@b.com",
        customerPhone := "555", status := ResStatus.confirmed,
        specialRequests := none } =
    formatCancellationConfirmation
      { id := "res_1", restaurantId := "y1", restaurantName := "Chez Nous",
        date := "2024-08-15", time := "7:00 PM", partySize := 2,
        customerName := "Ada", customerEmail := "a@b.com",
        customerPhone := "555", status := ResStatus.confirmed,
        specialRequests := none } ∧
    formatRestaurant
      { id := "y1", name := "Chez Nous", cuisine := "French",
        location := "12 Rue", rating := 9/2, priceLevel := 2, phone := none,
        website := none, imageUrl := none, description := none } =
    formatRestaurant
      { id := "y1", name := "Chez Nous", cuisine := "French",
        location := "12 Rue", rating := 9/2, priceLevel := 2, phone := none,
        website := none, imageUrl := none, description := none } ∧
    formatRestaurantDetails
      { id := "y1", name := "Chez Nous", cuisine := "French",
        location := "12 Rue", rating := 9/2, priceLevel := 2, phone := none,
        website := none, imageUrl := none, description := none } =
    formatRestaurantDetails
      { id := "y1", name := "Chez Nous", cuisine := "French",
        location := "12 Rue", rating := 9/2, priceLevel := 2, phone := none,
        website := none, imageUrl := none, description := none } :=
  formatters_pure_total _ _ _ _ _ _ rfl rfl rfl

/-- C5: `getTravelPlan` returns, for every plan id and every service state,
the hard-coded mock plan (fixed title, destinations, dates, travelers,
budget, `planning` status, no flights or hotels) carrying the requested
id; `createTravelPlan` leaves the service state unchanged (the class has
no plan storage), so a created plan is never observable through a later
`getTravelPlan` call. -/
theorem travelPlan_mock_no_storage (planId : String)
    (st : BookingServiceState) (title : String) (destinations : List String)
    (startDate endDate : String) (travelers : Nat) (budget : Option ℚ)
    (newPlanId nowIso : String) :
    getTravelPlan planId st =
      some
        { id := planId, title := "European Adventure",
          destinations := ["Paris", "Rome", "Barcelona"],
          startDate := "2024-06-15", endDate := "2024-06-25", travelers := 2,
          budget := some 5000, status := PlanStatus.planning, flights := [],
          hotels := [], createdAt := "2024-01-15T10:00:00Z",
          updatedAt := "2024-01-15T10:00:00Z" } ∧
    (createTravelPlan title destinations startDate endDate travelers budget
      newPlanId nowIso st).2 = st ∧
    getTravelPlan planId
      (createTravelPlan title destinations startDate endDate travelers budget
        newPlanId nowIso st).2 = getTravelPlan planId st :=
  ⟨rfl, rfl, rfl⟩

/-- C6 (amended): when `minRating` is defined and nonzero, the service
filters the provider's converted response array locally — the result is
exactly the converted list passed through `filter (rating ≥ minRating)`,
so every returned restaurant meets the threshold, the ones below it are
removed, and no restaurant is altered or reordered; and the query
parameters sent to the provider never depend on `minRating`. -/
theorem searchRestaurants_minRating_filter (filters : RestaurantSearchFilters)
    (m : ℚ) (hm : filters.minRating = some m) (hm0 : m ≠ 0)
    (businesses : List YelpBusiness) :
    searchRestaurantsFromResponse filters businesses =
      (businesses.map convertYelpToRestaurant).filter
        (fun r => decide (m ≤ r.rating)) ∧
    (∀ r ∈ searchRestaurantsFromResponse filters businesses, m ≤ r.rating) ∧
    ∀ x, buildYelpSearchParams { filters with minRating := x } =
      buildYelpSearchParams filters := by
  have hif : searchRestaurantsFromResponse filters businesses =
      if m = 0 then businesses.map convertYelpToRestaurant
      else (businesses.map convertYelpToRestaurant).filter
        (fun r => decide (m ≤ r.rating)) := by
    unfold searchRestaurantsFromResponse
    rw [hm]
  have he : searchRestaurantsFromResponse filters businesses =
      (businesses.map convertYelpToRestaurant).filter
        (fun r => decide (m ≤ r.rating)) := by
    rw [hif, if_neg hm0]
  refine ⟨he, ?_, fun x => rfl⟩
  intro r hr
  rw [he] at hr
  have := (List.mem_filter.mp hr).2
  simpa using this

/-- C6, the claim as frozen, is false: with `minRating` defined but zero,
the JavaScript truthiness test `if (filters.minRating)` skips the filter,
so a provider entry whose (unvalidated) rating is below the threshold is
returned as-is. -/
theorem searchRestaurants_minRating_counterexample :
    ∃ r ∈ searchRestaurantsFromResponse
      { location := none, cuisine := none, priceLevel := none,
        minRating := some 0 }
      [{ id := "b1", name := "Bad Data Bistro", image_url := "", url := "",
         review_count := 0, categories := [], rating := -1, price := none,
         display_phone := "", location := { display_address := [] } }],
      ¬ ((0 : ℚ) ≤ r.rating) := by
  decide

/-- Witness for the amended C6 theorem at a concrete filter set and
two-business response. -/
theorem searchRestaurants_minRating_filter_witness :
    searchRestaurantsFromResponse
      { location := none, cuisine := none, priceLevel := none,
        minRating := some 4 }
      [{ id := "b1", name := "Good", image_url := "", url := "",
         review_count := 10, categories := [], rating := 9/2, price := none,
         display_phone := "", location := { display_address := [] } },
       { id := "b2", name := "Meh", image_url := "", url := "",
         review_count := 3, categories := [], rating := 3, price := none,
         display_phone := "", location := { display_address := [] } }] =
      (([{ id := "b1", name := "Good", image_url := "", url := "",
           review_count := 10, categories := [], rating := 9/2, price := none,
           display_phone := "", location := { display_address := [] } },
         { id := "b2", name := "Meh", image_url := "", url := "",
           review_count := 3, categories := [], rating := 3, price := none,
           display_phone := "", location := { display_address := [] } }] :
        List YelpBusiness).map convertYelpToRestaurant).filter
        (fun r => decide ((4 : ℚ) ≤ r.rating)) ∧
    (∀ r ∈ searchRestaurantsFromResponse
      { location := none, cuisine := none, priceLevel := none,
        minRating := some 4 }
      [{ id := "b1", name := "Good", image_url := "", url := "",
         review_count := 10, categories := [], rating := 9/2, price := none,
         display_phone := "", location := { display_address := [] } },
       { id := "b2", name := "Meh", image_url := "", url := "",
         review_count := 3, categories := [], rating := 3, price := none,
         display_phone := "", location := { display_address := [] } }],
      (4 : ℚ) ≤ r.rating) ∧
    ∀ x, buildYelpSearchParams
      { location := none, cuisine := none, priceLevel := none,
        minRating := x } =
      buildYelpSearchParams
      { location := none, cuisine := none, priceLevel := none,
        minRating := some 4 } :=
  searchRestaurants_minRating_filter
    { location := none, cuisine := none, priceLevel := none,
      minRating := some 4 } 4 rfl (by decide)
    [{ id := "b1", name := "Good", image_url := "", url := "",
       review_count := 10, categories := [], rating := 9/2, price := none,
       display_phone := "", location := { display_address := [] } },
     { id := "b2", name := "Meh", image_url := "", url := "",
       review_count := 3, categories := [], rating := 3, price := none,
       display_phone := "", location := { display_address := [] } }]

/-- C3: a tool invocation whose arguments fail the declared schema is
rejected by the validation gate before the registered handler — the only
place an outbound HTTP request is made — runs: the dispatch outcome is
`rejected` for every possible handler. -/
theorem schema_validation_gate {β : Type}
    (handler1 : SearchRestaurantsArgs → β)
    (handler2 : CheckAvailabilityArgs → β)
    (handler3 : MakeReservationArgs → β)
    (a1 : SearchRestaurantsArgs) (a2 : CheckAvailabilityArgs)
    (a3 : MakeReservationArgs)
    (h1 : validSearchRestaurantsArgs a1 = false)
    (h2 : validCheckAvailabilityArgs a2 = false)
    (h3 : validMakeReservationArgs a3 = false) :
    dispatchTool validSearchRestaurantsArgs handler1 a1 =
      ToolOutcome.rejected ∧
    dispatchTool validCheckAvailabilityArgs handler2 a2 =
      ToolOutcome.rejected ∧
    dispatchTool validMakeReservationArgs handler3 a3 =
      ToolOutcome.rejected := by
  unfold dispatchTool
  rw [h1, h2, h3]
  exact ⟨rfl, rfl, rfl⟩

/-- Witness for C3: `priceLevel` 5 (outside 1..4), a non-string `location`,
`partySize` 0 and `partySize` 21 (outside 1..20) are all rejected. -/
theorem schema_validation_gate_witness :
    dispatchTool validSearchRestaurantsArgs
      (fun _ => (0 : Nat))
      { location := some (JsonArg.num 3), cuisine := none,
        priceLevel := some (JsonArg.num 5), minRating := some (JsonArg.num 6) } =
      ToolOutcome.rejected ∧
    dispatchTool validCheckAvailabilityArgs
      (fun _ => (0 : Nat))
      { restaurantId := some (JsonArg.str "y1"),
        date := some (JsonArg.str "2024-08-15"),
        time := some (JsonArg.str "7:00 PM"),
        partySize := some (JsonArg.num 0) } = ToolOutcome.rejected ∧
    dispatchTool validMakeReservationArgs
      (fun _ => (0 : Nat))
      { restaurantId := some (JsonArg.str "y1"),
        date := some (JsonArg.str "2024-08-15"),
        time := some (JsonArg.str "7:00 PM"),
        partySize := some (JsonArg.num 21),
        customerName := some (JsonArg.str "Ada"),
        customerEmail := some (JsonArg.str "a@b.com"),
        customerPhone := some (JsonArg.str "555"),
        specialRequests := none } = ToolOutcome.rejected :=
  schema_validation_gate _ _ _ _ _ _ (by decide) (by decide) (by decide)

/-- C7: for every tool handler and every thrown value, the catch-all
converts the exception into a normal single-text result — the thrown value
never escapes `jsTryCatch` — whose text is the handler error-indicator
lead-in followed by the thrown error's message (`'Unknown error'` for
non-`Error` throws), with `book_flight` appending its fixed advice
suffix. -/
theorem handlers_catch_and_report (e : JsThrown) :
    jsTryCatch (Except.error e) searchRestaurantsOnError =
      ⟨[⟨"text", "❌ Error searching restaurants: " ++ thrownMessage e⟩]⟩ ∧
    jsTryCatch (Except.error e) getRestaurantDetailsOnError =
      ⟨[⟨"text", "❌ Error fetching restaurant details: " ++ thrownMessage e⟩]⟩ ∧
    jsTryCatch (Except.error e) checkAvailabilityOnError =
      ⟨[⟨"text", "❌ Error checking availability: " ++ thrownMessage e⟩]⟩ ∧
    jsTryCatch (Except.error e) makeReservationOnError =
      ⟨[⟨"text", "❌ Error making reservation: " ++ thrownMessage e⟩]⟩ ∧
    jsTryCatch (Except.error e) viewReservationsOnError =
      ⟨[⟨"text", "❌ Error retrieving reservations: " ++ thrownMessage e⟩]⟩ ∧
    jsTryCatch (Except.error e) cancelReservationOnError =
      ⟨[⟨"text", "❌ Error cancelling reservation: " ++ thrownMessage e⟩]⟩ ∧
    jsTryCatch (Except.error e) searchFlightsOnError =
      ⟨[⟨"text", "Error searching flights: " ++ thrownMessage e⟩]⟩ ∧
    jsTryCatch (Except.error e) bookFlightOnError =
      ⟨[⟨"text", "❌ Flight booking failed: " ++ thrownMessage e ++
        "\n\nPlease check your information and try again."⟩]⟩ := by
  refine ⟨?_, ?_, ?_, ?_, ?_, ?_, ?_, ?_⟩ <;>
    simp [jsTryCatch, searchRestaurantsOnError, getRestaurantDetailsOnError,
      checkAvailabilityOnError, makeReservationOnError,
      viewReservationsOnError, cancelReservationOnError, searchFlightsOnError,
      bookFlightOnError, catchResult]
